import Mathlib

/-!
Verification of the RO-Desalination pressure predictor
(`src/client/src/pages/Home.tsx`).

The predictor `calculateMinimumPressure` is a closed-form formula over six
numeric fields computed with JavaScript double arithmetic.  We model finite
double values by real numbers (ignoring rounding error and overflow, which
are irrelevant at the magnitudes involved) and model the JavaScript values
`Infinity`, `-Infinity` and `NaN` explicitly with the type `JSNum`, because
the function has no guard on `membraneArea` and `Math.sqrt` / division can
produce those values.  `x.toFixed(2)` followed by `parseFloat` is modelled
by `round2`, which follows the ECMAScript `toFixed` definition (the integer
`n` minimising `|n / 100 - x|`, ties resolved to the larger `n`, i.e.
`⌊100 x + 1/2⌋`).
-/

open Classical

/-- The six input fields of the predictor (the `formData` record). -/
structure OperatingConditions where
  salinity : ℝ
  temperature : ℝ
  pH : ℝ
  turbidity : ℝ
  membraneArea : ℝ
  foulingFactor : ℝ

/-- A JavaScript number: a finite value (modelled as a real), `Infinity`,
`-Infinity`, or `NaN`. -/
inductive JSNum where
  | fin (x : ℝ)
  | inf
  | ninf
  | nan

namespace JSNum

/-- JavaScript addition on `JSNum` (IEEE-754 semantics; signed zeros are
identified with `0`). -/
noncomputable def jadd : JSNum → JSNum → JSNum
  | nan, _ => nan
  | _, nan => nan
  | inf, ninf => nan
  | ninf, inf => nan
  | inf, _ => inf
  | _, inf => inf
  | ninf, _ => ninf
  | _, ninf => ninf
  | fin a, fin b => fin (a + b)

/-- JavaScript multiplication on `JSNum` (IEEE-754 semantics; signed zeros
are identified with `0`, so `±∞ * 0 = NaN`). -/
noncomputable def jmul : JSNum → JSNum → JSNum
  | fin a, fin b => fin (a * b)
  | nan, _ => nan
  | _, nan => nan
  | inf, inf => inf
  | inf, ninf => ninf
  | ninf, inf => ninf
  | ninf, ninf => inf
  | inf, fin b => if 0 < b then inf else if b < 0 then ninf else nan
  | fin a, inf => if 0 < a then inf else if a < 0 then ninf else nan
  | ninf, fin b => if 0 < b then ninf else if b < 0 then inf else nan
  | fin a, ninf => if 0 < a then ninf else if a < 0 then inf else nan

/-- JavaScript division on `JSNum` (IEEE-754 semantics; signed zeros are
identified with `0`, so `x / 0` is `±Infinity` by the sign of `x` and
`0 / 0 = NaN`). -/
noncomputable def jdiv : JSNum → JSNum → JSNum
  | nan, _ => nan
  | _, nan => nan
  | inf, inf => nan
  | inf, ninf => nan
  | ninf, inf => nan
  | ninf, ninf => nan
  | inf, fin b => if b < 0 then ninf else inf
  | ninf, fin b => if b < 0 then inf else ninf
  | fin _, inf => fin 0
  | fin _, ninf => fin 0
  | fin a, fin b => if b = 0 then (if 0 < a then inf else if a < 0 then ninf else nan) else fin (a / b)

/-- JavaScript `Math.sqrt` on `JSNum`: `NaN` on negative arguments
(Lean's `Real.sqrt` would silently return `0` there, so the guard is what
makes the model faithful). -/
noncomputable def jsqrt : JSNum → JSNum
  | nan => nan
  | inf => inf
  | ninf => nan
  | fin a => if 0 ≤ a then fin (Real.sqrt a) else nan

/-- Returns `true` exactly on finite values (`Number.isFinite`). -/
def isFinite : JSNum → Bool
  | fin _ => true
  | _ => false

end JSNum

/-- ECMAScript `toFixed(2)` on a finite value, composed with `parseFloat`
of the resulting digit string: the integer `n` for which `n / 100` is
closest to `x`, the larger `n` on ties. -/
noncomputable def round2 (x : ℝ) : ℝ := (⌊x * 100 + 1 / 2⌋ : ℤ) / 100

/-- Model of `x.toFixed(2)` followed by `parseFloat`: finite values are rounded to
two decimals, and `Infinity.toFixed(2) = "Infinity"`, `NaN.toFixed(2) =
"NaN"` parse back to themselves. -/
noncomputable def jtoFixed2 : JSNum → JSNum
  | JSNum.fin a => JSNum.fin (round2 a)
  | JSNum.inf => JSNum.inf
  | JSNum.ninf => JSNum.ninf
  | JSNum.nan => JSNum.nan

/-- Source: `const R = 0.083145` — gas constant in L·bar·K⁻¹·mol⁻¹. -/
def gasR : ℝ := 0.083145

/-- Source: `const vantHoffFactor = 2`. -/
def vantHoffFactor : ℝ := 2

/-- Source: `const T_K = formData.temperature + 273.15`. -/
def T_K (c : OperatingConditions) : ℝ := c.temperature + 273.15

/-- Source: `const osmotic_pressure = vantHoffFactor * formData.salinity * R * T_K`. -/
def osmotic_pressure (c : OperatingConditions) : ℝ :=
  vantHoffFactor * c.salinity * gasR * T_K c

/-- Source: `const operational_pressure = osmotic_pressure * 1.6`. -/
def operational_pressure (c : OperatingConditions) : ℝ := osmotic_pressure c * 1.6

/-- Source: `const viscosity_adjustment = 1 - (0.004 * (formData.temperature - 25))`. -/
def viscosity_adjustment (c : OperatingConditions) : ℝ :=
  1 - 0.004 * (c.temperature - 25)

/-- Source: `const pressure_after_temp = operational_pressure * viscosity_adjustment`. -/
def pressure_after_temp (c : OperatingConditions) : ℝ :=
  operational_pressure c * viscosity_adjustment c

/-- Source: `const fouling_penalty = 32 * formData.foulingFactor`. -/
def fouling_penalty (c : OperatingConditions) : ℝ := 32 * c.foulingFactor

/-- Source: `const turbidity_penalty = 2.5 * formData.turbidity`. -/
def turbidity_penalty (c : OperatingConditions) : ℝ := 2.5 * c.turbidity

/-- Source: `const optimal_pH = 7.75`. -/
def optimal_pH : ℝ := 7.75

/-- Source: `const pH_penalty = 6.0 * Math.abs(formData.pH - optimal_pH)`. -/
def pH_penalty (c : OperatingConditions) : ℝ := 6.0 * |c.pH - optimal_pH|

/-- Source: `const area_scaling_factor = 7.0 / Math.sqrt(formData.membraneArea)` —
the two operations that can leave the finite domain, so computed in
`JSNum`. -/
noncomputable def area_scaling_factor (c : OperatingConditions) : JSNum :=
  JSNum.jdiv (JSNum.fin 7.0) (JSNum.jsqrt (JSNum.fin c.membraneArea))

/-- Source: `let predicted_pressure = ((pressure_after_temp + turbidity_penalty +
pH_penalty) * area_scaling_factor) + fouling_penalty` (the three summed
penalties are finite, the multiplication and final addition follow
JavaScript semantics because `area_scaling_factor` may be non-finite). -/
noncomputable def predicted_pressure (c : OperatingConditions) : JSNum :=
  JSNum.jadd
    (JSNum.jmul
      (JSNum.fin (pressure_after_temp c + turbidity_penalty c + pH_penalty c))
      (area_scaling_factor c))
    (JSNum.fin (fouling_penalty c))

/-- Source: `setPredictedPressure(parseFloat(predicted_pressure.toFixed(2)))` —
the value stored as the predicted result. -/
noncomputable def calculateMinimumPressure (c : OperatingConditions) : JSNum :=
  jtoFixed2 (predicted_pressure c)

/-- The real value the pipeline computes when `membraneArea > 0`, before
rounding. -/
noncomputable def predictedR (c : OperatingConditions) : ℝ :=
  (pressure_after_temp c + turbidity_penalty c + pH_penalty c) *
    (7.0 / Real.sqrt c.membraneArea) + fouling_penalty c

/-- Pipeline written out from the spec's words, for the refinement claim:
`T_K = temperature + 273.15`; `osmotic = 2 * salinity * 0.083145 * T_K`;
`operational = osmotic * 1.6`;
`after_temp = operational * (1 - 0.004 * (temperature - 25))`;
`predicted = (after_temp + 2.5 * turbidity + 6.0 * |pH - 7.75|) *
(7.0 / sqrt membraneArea) + 32 * foulingFactor`, rounded to 2 decimals. -/
noncomputable def specPredicted (c : OperatingConditions) : ℝ :=
  round2
    ((2 * c.salinity * 0.083145 * (c.temperature + 273.15) * 1.6 *
        (1 - 0.004 * (c.temperature - 25)) +
      2.5 * c.turbidity + 6.0 * |c.pH - 7.75|) *
      (7.0 / Real.sqrt c.membraneArea) + 32 * c.foulingFactor)

/-- Numeric value of a digit run, most significant digit first (the
ECMAScript mathematical value of `DecimalDigits`). -/
def digitsToNat (l : List Char) : Nat :=
  l.foldl (fun n c => 10 * n + (c.toNat - 48)) 0

/-- Optionally signed digit run at the head of the input (the body of an
exponent part); `none` when no digit follows. -/
def signedDigits (l : List Char) : Option ℤ :=
  match l with
  | '+' :: r =>
      if (r.takeWhile Char.isDigit).isEmpty then none
      else some (digitsToNat (r.takeWhile Char.isDigit) : ℤ)
  | '-' :: r =>
      if (r.takeWhile Char.isDigit).isEmpty then none
      else some (-(digitsToNat (r.takeWhile Char.isDigit) : ℤ))
  | r =>
      if (r.takeWhile Char.isDigit).isEmpty then none
      else some (digitsToNat (r.takeWhile Char.isDigit) : ℤ)

/-- Exponent value when a well-formed `e`/`E` exponent part starts the
remaining input; `parseFloat` ignores everything after the longest valid
literal, so otherwise `none`. -/
def exponentAt (l : List Char) : Option ℤ :=
  match l with
  | 'e' :: r => signedDigits r
  | 'E' :: r => signedDigits r
  | _ => none

/-- Parts of the longest unsigned decimal literal at the head of the
input — integer-part value, fraction-part value, fraction length, and
optional exponent: digits, optional dot and fraction digits, optional
exponent; `none` when no digit occurs before or right after the dot. -/
def parseUnsignedParts (l : List Char) : Option (ℕ × ℕ × ℕ × Option ℤ) :=
  let ip := l.takeWhile Char.isDigit
  let r1 := l.dropWhile Char.isDigit
  match r1 with
  | '.' :: r2 =>
      let fp := r2.takeWhile Char.isDigit
      let r3 := r2.dropWhile Char.isDigit
      if ip.isEmpty && fp.isEmpty then none
      else some (digitsToNat ip, digitsToNat fp, fp.length, exponentAt r3)
  | _ => if ip.isEmpty then none else some (digitsToNat ip, 0, 0, exponentAt r1)

/-- Sign and parts of the longest decimal literal after skipping leading
whitespace; the `Bool` is `true` for a `-` sign. -/
def parseFloatParts (s : String) : Option (Bool × ℕ × ℕ × ℕ × Option ℤ) :=
  let l := s.toList.dropWhile Char.isWhitespace
  match l with
  | '+' :: r => (parseUnsignedParts r).map (fun p => (false, p))
  | '-' :: r => (parseUnsignedParts r).map (fun p => (true, p))
  | _ => (parseUnsignedParts l).map (fun p => (false, p))

/-- Rational value of a parsed literal:
`±(ip + fp / 10^fl) * 10^exponent`. -/
def partsValue : Bool × ℕ × ℕ × ℕ × Option ℤ → ℚ
  | (neg, ip, fp, fl, ex) =>
    let mag := ((ip : ℚ) + (fp : ℚ) / 10 ^ fl) * 10 ^ ex.getD 0
    if neg then -mag else mag

/-- Model of the ECMAScript built-in `parseFloat` on decimal literals:
skip leading whitespace, optional sign, then the value of the longest
decimal-literal prefix of the rest; `none` models the `NaN` result.  (The
`Infinity` production of `parseFloat` is omitted; no claim involves it.) -/
def parseFloat (s : String) : Option ℚ := (parseFloatParts s).map partsValue

/-- Source: `const ensureNumber = (value, defaultValue = 0) => ...` — the
result of `parseFloat` when that is a number, the supplied default when it
is `NaN`. -/
def ensureNumber (value : String) (defaultValue : ℚ) : ℚ :=
  match parseFloat value with
  | some num => num
  | none => defaultValue

/-- The default form values: salinity 0.68, temperature 22, pH 7.7,
turbidity 5.2, membraneArea 50, foulingFactor 0.1 — also the reference
scenario of the spec. -/
noncomputable def condDefault : OperatingConditions := ⟨0.68, 22, 7.7, 5.2, 50, 0.1⟩

/-- Default conditions with membraneArea 49 (a perfect square, used for
exact concrete evaluations). -/
noncomputable def cond49 : OperatingConditions := ⟨0.68, 22, 7.7, 5.2, 49, 0.1⟩

/-- Same as `cond49` with foulingFactor slightly increased to 0.10001. -/
noncomputable def cond49f : OperatingConditions := ⟨0.68, 22, 7.7, 5.2, 49, 0.10001⟩

/-- Default conditions with membraneArea 0. -/
noncomputable def condZeroArea : OperatingConditions := ⟨0.68, 22, 7.7, 5.2, 0, 0.1⟩

/-- Default conditions with membraneArea -50. -/
noncomputable def condNegArea : OperatingConditions := ⟨0.68, 22, 7.7, 5.2, -50, 0.1⟩

/-- Default conditions with membraneArea 10 (the boundary of the
recommended domain). -/
noncomputable def condTenArea : OperatingConditions := ⟨0.68, 22, 7.7, 5.2, 10, 0.1⟩

/-- The extreme input of the no-clamping claim: salinity 2.0,
temperature 5, foulingFactor 1.0, other fields at their defaults. -/
noncomputable def condExtreme : OperatingConditions := ⟨2.0, 5, 7.7, 5.2, 50, 1.0⟩

/-- Default conditions written with equal but syntactically different
rational literals (for the determinism claim). -/
noncomputable def condDefaultQ : OperatingConditions := ⟨17 / 25, 22, 77 / 10, 26 / 5, 50, 1 / 10⟩

/-- Replaces the foulingFactor field, keeping the other five fields. -/
noncomputable def setFouling (c : OperatingConditions) (f : ℝ) : OperatingConditions :=
  ⟨c.salinity, c.temperature, c.pH, c.turbidity, c.membraneArea, f⟩

/-- Replaces the turbidity field, keeping the other five fields. -/
noncomputable def setTurbidity (c : OperatingConditions) (t : ℝ) : OperatingConditions :=
  ⟨c.salinity, c.temperature, c.pH, t, c.membraneArea, c.foulingFactor⟩

lemma jsqrt_fin_of_nonneg {a : ℝ} (h : 0 ≤ a) :
    JSNum.jsqrt (JSNum.fin a) = JSNum.fin (Real.sqrt a) := by
  simp [JSNum.jsqrt, h]

lemma jdiv_fin_fin {a b : ℝ} (h : b ≠ 0) :
    JSNum.jdiv (JSNum.fin a) (JSNum.fin b) = JSNum.fin (a / b) := by
  simp [JSNum.jdiv, h]

lemma area_scaling_factor_eq {c : OperatingConditions} (h : 0 < c.membraneArea) :
    area_scaling_factor c = JSNum.fin (7.0 / Real.sqrt c.membraneArea) := by
  rw [area_scaling_factor, jsqrt_fin_of_nonneg h.le,
    jdiv_fin_fin (ne_of_gt (Real.sqrt_pos.mpr h))]

/-- Bridge: with a positive membrane area the whole computation stays
finite and equals the rounded real pipeline. -/
lemma calculate_eq_fin {c : OperatingConditions} (h : 0 < c.membraneArea) :
    calculateMinimumPressure c = JSNum.fin (round2 (predictedR c)) := by
  rw [calculateMinimumPressure, predicted_pressure, area_scaling_factor_eq h]
  simp [JSNum.jmul, JSNum.jadd, jtoFixed2, predictedR]

lemma sqrt50_lb : (7.07106 : ℝ) ≤ Real.sqrt 50 := by
  have hs : Real.sqrt 50 ^ 2 = 50 := Real.sq_sqrt (by norm_num)
  have hnn : (0 : ℝ) ≤ Real.sqrt 50 := Real.sqrt_nonneg 50
  nlinarith [hs, hnn]

lemma sqrt50_ub : Real.sqrt 50 ≤ (7.07107 : ℝ) := by
  have hs : Real.sqrt 50 ^ 2 = 50 := Real.sq_sqrt (by norm_num)
  have hnn : (0 : ℝ) ≤ Real.sqrt 50 := Real.sqrt_nonneg 50
  nlinarith [hs, hnn]

lemma round2_eq_of {x : ℝ} {n : ℤ} (h1 : (n : ℝ) ≤ x * 100 + 1 / 2)
    (h2 : x * 100 + 1 / 2 < n + 1) : round2 x = (n : ℝ) / 100 := by
  rw [round2, Int.floor_eq_iff.mpr ⟨h1, by exact_mod_cast h2⟩]

lemma round2_mono {x y : ℝ} (h : x ≤ y) : round2 x ≤ round2 y := by
  have : (⌊x * 100 + 1 / 2⌋ : ℤ) ≤ ⌊y * 100 + 1 / 2⌋ :=
    Int.floor_le_floor (by linarith)
  rw [round2, round2]
  have hcast : ((⌊x * 100 + 1 / 2⌋ : ℤ) : ℝ) ≤ ((⌊y * 100 + 1 / 2⌋ : ℤ) : ℝ) := by
    exact_mod_cast this
  linarith

lemma round2_ge {x : ℝ} {n : ℤ} (h : (n : ℝ) ≤ x * 100 + 1 / 2) :
    (n : ℝ) / 100 ≤ round2 x := by
  rw [round2]
  have hfl : n ≤ ⌊x * 100 + 1 / 2⌋ := Int.le_floor.mpr h
  have hcast : ((n : ℤ) : ℝ) ≤ ((⌊x * 100 + 1 / 2⌋ : ℤ) : ℝ) := by exact_mod_cast hfl
  linarith

lemma sqrt49_eq : Real.sqrt 49 = 7 := by
  rw [show (49 : ℝ) = 7 ^ 2 by norm_num, Real.sqrt_sq (by norm_num)]

/-- Exact value of the three summed terms for the default feedwater
fields (salinity 0.68, temperature 22, pH 7.7, turbidity 5.2), for any
membrane area and fouling factor. -/
lemma Ssum_eval (a ff : ℝ) :
    pressure_after_temp ⟨0.68, 22, 7.7, 5.2, a, ff⟩ +
      turbidity_penalty ⟨0.68, 22, 7.7, 5.2, a, ff⟩ +
      pH_penalty ⟨0.68, 22, 7.7, 5.2, a, ff⟩ = 67.340371851136 := by
  simp only [pressure_after_temp, operational_pressure, osmotic_pressure,
    viscosity_adjustment, turbidity_penalty, pH_penalty, T_K, vantHoffFactor,
    gasR, optimal_pH]
  rw [show (7.7 : ℝ) - 7.75 = -(0.05) by norm_num, abs_neg,
    abs_of_nonneg (by norm_num : (0 : ℝ) ≤ 0.05)]
  norm_num

lemma predictedR_eval (a ff : ℝ) :
    predictedR ⟨0.68, 22, 7.7, 5.2, a, ff⟩ =
      67.340371851136 * (7.0 / Real.sqrt a) + 32 * ff := by
  rw [predictedR, Ssum_eval a ff]
  rfl

/-- C1: for every input with membraneArea > 0 the predictor computes
exactly the specified pipeline — osmotic pressure by Van't Hoff, the 1.6
operational margin, the temperature de-rating, turbidity and pH penalties
added before the inverse-square-root area scaling, the fouling penalty
added after it, and the result rounded to 2 decimal places. -/
theorem predictor_matches_spec_pipeline (c : OperatingConditions)
    (h : 0 < c.membraneArea) :
    calculateMinimumPressure c = JSNum.fin (specPredicted c) := by
  have hval : predictedR c =
      (2 * c.salinity * 0.083145 * (c.temperature + 273.15) * 1.6 *
          (1 - 0.004 * (c.temperature - 25)) +
        2.5 * c.turbidity + 6.0 * |c.pH - 7.75|) *
        (7.0 / Real.sqrt c.membraneArea) + 32 * c.foulingFactor := by
    simp only [predictedR, pressure_after_temp, operational_pressure, osmotic_pressure,
      viscosity_adjustment, turbidity_penalty, pH_penalty, fouling_penalty, T_K,
      vantHoffFactor, gasR, optimal_pH]
    try ring
  rw [calculate_eq_fin h, specPredicted, hval]

/-- Witness for C1 at the concrete input `cond49`. -/
theorem predictor_matches_spec_pipeline_witness :
    (0 : ℝ) < cond49.membraneArea ∧
      calculateMinimumPressure cond49 = JSNum.fin (specPredicted cond49) :=
  ⟨by norm_num [cond49], predictor_matches_spec_pipeline cond49 (by norm_num [cond49])⟩

/-- C5: the predictor is pure and deterministic — its output is a function
of the six input fields alone, so any two condition records that agree on
all six fields (in particular, two calls with the identical record)
produce identical output. -/
theorem predictor_deterministic (c c' : OperatingConditions)
    (h1 : c.salinity = c'.salinity) (h2 : c.temperature = c'.temperature)
    (h3 : c.pH = c'.pH) (h4 : c.turbidity = c'.turbidity)
    (h5 : c.membraneArea = c'.membraneArea)
    (h6 : c.foulingFactor = c'.foulingFactor) :
    calculateMinimumPressure c = calculateMinimumPressure c' := by
  obtain ⟨s1, t1, p1, u1, a1, f1⟩ := c
  obtain ⟨s2, t2, p2, u2, a2, f2⟩ := c'
  simp only at h1 h2 h3 h4 h5 h6
  subst h1 h2 h3 h4 h5 h6
  rfl

/-- Witness for C5: the default conditions written with two different but
equal sets of literals give the same output. -/
theorem predictor_deterministic_witness :
    calculateMinimumPressure condDefault = calculateMinimumPressure condDefaultQ :=
  predictor_deterministic condDefault condDefaultQ
    (by norm_num [condDefault, condDefaultQ]) (by norm_num [condDefault, condDefaultQ])
    (by norm_num [condDefault, condDefaultQ]) (by norm_num [condDefault, condDefaultQ])
    (by norm_num [condDefault, condDefaultQ]) (by norm_num [condDefault, condDefaultQ])

/-- C7: for every offset d and any fixed values of the other five fields,
the predictor's output at pH = 7.75 + d equals its output at
pH = 7.75 - d: the pH penalty is symmetric around 7.75. -/
theorem pH_penalty_symmetric (s t d tu a f : ℝ) :
    calculateMinimumPressure ⟨s, t, 7.75 + d, tu, a, f⟩ =
      calculateMinimumPressure ⟨s, t, 7.75 - d, tu, a, f⟩ := by
  have hpen : pH_penalty ⟨s, t, 7.75 + d, tu, a, f⟩ =
      pH_penalty ⟨s, t, 7.75 - d, tu, a, f⟩ := by
    simp only [pH_penalty, optimal_pH]
    rw [show (7.75 : ℝ) + d - 7.75 = d by ring,
      show (7.75 : ℝ) - d - 7.75 = -d by ring, abs_neg]
  simp only [calculateMinimumPressure, predicted_pressure]
  rw [hpen]
  rfl

lemma round2_predictedR_condDefault : round2 (predictedR condDefault) = 6986 / 100 := by
  have hval : predictedR condDefault = 67.340371851136 * (7.0 / Real.sqrt 50) + 3.2 := by
    simp only [condDefault]
    rw [predictedR_eval]
    norm_num
  rw [hval]
  have hs1 := sqrt50_lb
  have hs2 := sqrt50_ub
  have hpos : (0 : ℝ) < Real.sqrt 50 := lt_of_lt_of_le (by norm_num) hs1
  have hss : Real.sqrt 50 * (7.0 / Real.sqrt 50) = 7.0 := by field_simp
  have hu : (0 : ℝ) < 7.0 / Real.sqrt 50 := by positivity
  have h1 : ((6986 : ℤ) : ℝ) ≤ (67.340371851136 * (7.0 / Real.sqrt 50) + 3.2) * 100 + 1 / 2 := by
    push_cast
    nlinarith [hss, hu, hs1, hs2]
  have h2 : (67.340371851136 * (7.0 / Real.sqrt 50) + 3.2) * 100 + 1 / 2 < ((6986 : ℤ) : ℝ) + 1 := by
    push_cast
    nlinarith [hss, hu, hs1, hs2]
  rw [round2_eq_of h1 h2]
  norm_num

/-- C2 as stated is false on the code: at the reference input
{salinity 0.68, temperature 22, pH 7.7, turbidity 5.2, membraneArea 50,
foulingFactor 0.1} the predictor returns exactly 69.86 bar, which is not
within 0.01 of 69.97. -/
theorem reference_scenario_counterexample :
    calculateMinimumPressure condDefault = JSNum.fin (6986 / 100) ∧
      ¬ |(6986 / 100 : ℝ) - 69.97| ≤ 0.01 := by
  constructor
  · rw [calculate_eq_fin (by norm_num [condDefault]), round2_predictedR_condDefault]
  · rw [show (6986 / 100 : ℝ) - 69.97 = -(0.11) by norm_num, abs_neg,
      abs_of_nonneg (by norm_num : (0 : ℝ) ≤ 0.11)]
    norm_num

/-- C2 amended: at the reference input the predictor returns 69.86 bar
(the spec's own expansion of the pipeline mis-multiplies; the value within
±0.01 is 69.86, not 69.97). -/
theorem reference_scenario_value :
    calculateMinimumPressure condDefault = JSNum.fin (6986 / 100) ∧
      |(6986 / 100 : ℝ) - 69.86| ≤ 0.01 := by
  constructor
  · rw [calculate_eq_fin (by norm_num [condDefault]), round2_predictedR_condDefault]
  · rw [show (6986 / 100 : ℝ) - 69.86 = 0 by norm_num, abs_zero]
    norm_num

lemma jsqrt_neg {a : ℝ} (h : a < 0) : JSNum.jsqrt (JSNum.fin a) = JSNum.nan := by
  simp only [JSNum.jsqrt]
  rw [if_neg (not_le.mpr h)]

lemma calc_nan_of_area_neg {c : OperatingConditions} (h : c.membraneArea < 0) :
    calculateMinimumPressure c = JSNum.nan := by
  rw [calculateMinimumPressure, predicted_pressure, area_scaling_factor, jsqrt_neg h]
  rfl

lemma area_scaling_inf_of_zero {c : OperatingConditions} (h : c.membraneArea = 0) :
    area_scaling_factor c = JSNum.inf := by
  rw [area_scaling_factor, h, jsqrt_fin_of_nonneg le_rfl, Real.sqrt_zero]
  simp only [JSNum.jdiv]
  norm_num

lemma calc_nonfinite_of_area_zero {c : OperatingConditions} (h : c.membraneArea = 0) :
    (calculateMinimumPressure c).isFinite = false := by
  rw [calculateMinimumPressure, predicted_pressure, area_scaling_inf_of_zero h]
  rcases lt_trichotomy 0 (pressure_after_temp c + turbidity_penalty c + pH_penalty c)
    with hS | hS | hS
  · have e1 : JSNum.jmul
        (JSNum.fin (pressure_after_temp c + turbidity_penalty c + pH_penalty c))
        JSNum.inf = JSNum.inf := by
      simp only [JSNum.jmul]
      rw [if_pos hS]
    rw [e1]
    rfl
  · have e1 : JSNum.jmul
        (JSNum.fin (pressure_after_temp c + turbidity_penalty c + pH_penalty c))
        JSNum.inf = JSNum.nan := by
      simp only [JSNum.jmul]
      rw [if_neg (by rw [← hS]; exact lt_irrefl 0),
        if_neg (by rw [← hS]; exact lt_irrefl 0)]
    rw [e1]
    rfl
  · have e1 : JSNum.jmul
        (JSNum.fin (pressure_after_temp c + turbidity_penalty c + pH_penalty c))
        JSNum.inf = JSNum.ninf := by
      simp only [JSNum.jmul]
      rw [if_neg (asymm hS), if_pos hS]
    rw [e1]
    rfl

/-- C3: the spec requires a raised domain error for membraneArea ≤ 0, but
the code has no guard: at membraneArea = 0 (default other fields) it
silently stores Infinity and at membraneArea = -50 it silently stores
NaN, with no error raised; at membraneArea = 10 it succeeds with a finite
numeric result. -/
theorem domain_error_not_raised :
    calculateMinimumPressure condZeroArea = JSNum.inf ∧
      calculateMinimumPressure condNegArea = JSNum.nan ∧
      ∃ r : ℝ, calculateMinimumPressure condTenArea = JSNum.fin r := by
  refine ⟨?_, calc_nan_of_area_neg (by norm_num [condNegArea]),
    ⟨_, calculate_eq_fin (by norm_num [condTenArea])⟩⟩
  rw [calculateMinimumPressure, predicted_pressure,
    area_scaling_inf_of_zero (by norm_num [condZeroArea] : condZeroArea.membraneArea = 0)]
  have hS : (0 : ℝ) < pressure_after_temp condZeroArea + turbidity_penalty condZeroArea +
      pH_penalty condZeroArea := by
    simp only [condZeroArea]
    rw [Ssum_eval]
    norm_num
  have e1 : JSNum.jmul
      (JSNum.fin (pressure_after_temp condZeroArea + turbidity_penalty condZeroArea +
        pH_penalty condZeroArea)) JSNum.inf = JSNum.inf := by
    simp only [JSNum.jmul]
    rw [if_pos hS]
  rw [e1]
  rfl

/-- C4: `calculateMinimumPressure` has no guard on membraneArea and never
fails: it is a total function, and for every input with membraneArea = 0
the area scaling factor is Infinity and the stored result is non-finite,
while for every input with membraneArea < 0 the square root is NaN and
NaN is stored as the predicted result. -/
theorem no_guard_silent_nonfinite (c : OperatingConditions) :
    (c.membraneArea = 0 →
      area_scaling_factor c = JSNum.inf ∧
        (calculateMinimumPressure c).isFinite = false) ∧
    (c.membraneArea < 0 →
      JSNum.jsqrt (JSNum.fin c.membraneArea) = JSNum.nan ∧
        calculateMinimumPressure c = JSNum.nan) :=
  ⟨fun h0 => ⟨area_scaling_inf_of_zero h0, calc_nonfinite_of_area_zero h0⟩,
    fun hneg => ⟨jsqrt_neg hneg, calc_nan_of_area_neg hneg⟩⟩

/-- Witness for C4 at membraneArea 0 and membraneArea -50. -/
theorem no_guard_silent_nonfinite_witness :
    (area_scaling_factor condZeroArea = JSNum.inf ∧
      (calculateMinimumPressure condZeroArea).isFinite = false) ∧
    (JSNum.jsqrt (JSNum.fin condNegArea.membraneArea) = JSNum.nan ∧
      calculateMinimumPressure condNegArea = JSNum.nan) :=
  ⟨(no_guard_silent_nonfinite condZeroArea).1 (by norm_num [condZeroArea]),
    (no_guard_silent_nonfinite condNegArea).2 (by norm_num [condNegArea])⟩

lemma round2_predictedR_cond49 : round2 (predictedR cond49) = 7054 / 100 := by
  have hval : predictedR cond49 = 70.540371851136 := by
    simp only [cond49]
    rw [predictedR_eval, sqrt49_eq]
    norm_num
  rw [hval]
  have h1 : ((7054 : ℤ) : ℝ) ≤ 70.540371851136 * 100 + 1 / 2 := by push_cast; norm_num
  have h2 : (70.540371851136 : ℝ) * 100 + 1 / 2 < ((7054 : ℤ) : ℝ) + 1 := by
    push_cast; norm_num
  rw [round2_eq_of h1 h2]
  norm_num

lemma round2_predictedR_cond49f : round2 (predictedR cond49f) = 7054 / 100 := by
  have hval : predictedR cond49f = 70.540691851136 := by
    simp only [cond49f]
    rw [predictedR_eval, sqrt49_eq]
    norm_num
  rw [hval]
  have h1 : ((7054 : ℤ) : ℝ) ≤ 70.540691851136 * 100 + 1 / 2 := by push_cast; norm_num
  have h2 : (70.540691851136 : ℝ) * 100 + 1 / 2 < ((7054 : ℤ) : ℝ) + 1 := by
    push_cast; norm_num
  rw [round2_eq_of h1 h2]
  norm_num

/-- C6 as stated is false on the code: the returned output is rounded to
two decimals, so a strict increase of foulingFactor from 0.1 to 0.10001
(all other fields fixed, membraneArea = 49 > 0) leaves the returned
output unchanged at 70.54 bar — the returned value does not strictly
increase. -/
theorem monotonicity_strict_counterexample :
    cond49.foulingFactor < cond49f.foulingFactor ∧
      calculateMinimumPressure cond49 = JSNum.fin (7054 / 100) ∧
      calculateMinimumPressure cond49f = JSNum.fin (7054 / 100) := by
  refine ⟨by norm_num [cond49, cond49f], ?_, ?_⟩
  · rw [calculate_eq_fin (by norm_num [cond49]), round2_predictedR_cond49]
  · rw [calculate_eq_fin (by norm_num [cond49f]), round2_predictedR_cond49f]

/-- C6 amended: holding all else fixed with membraneArea > 0, strictly
increasing foulingFactor or turbidity strictly increases the unrounded
predicted pressure, and the returned (2-decimal-rounded) output increases
weakly — strictness on the returned value can be lost to rounding. -/
theorem monotonicity_amended (c : OperatingConditions) (f2 t2 : ℝ)
    (hA : 0 < c.membraneArea) (hf : c.foulingFactor < f2) (ht : c.turbidity < t2) :
    predictedR c < predictedR (setFouling c f2) ∧
      predictedR c < predictedR (setTurbidity c t2) ∧
      (∃ x y : ℝ, calculateMinimumPressure c = JSNum.fin x ∧
        calculateMinimumPressure (setFouling c f2) = JSNum.fin y ∧ x ≤ y) ∧
      (∃ x y : ℝ, calculateMinimumPressure c = JSNum.fin x ∧
        calculateMinimumPressure (setTurbidity c t2) = JSNum.fin y ∧ x ≤ y) := by
  have hu : (0 : ℝ) < 7.0 / Real.sqrt c.membraneArea := by positivity
  have hF : predictedR (setFouling c f2) - predictedR c = 32 * (f2 - c.foulingFactor) := by
    simp only [predictedR, setFouling, fouling_penalty, pressure_after_temp,
      operational_pressure, osmotic_pressure, viscosity_adjustment, turbidity_penalty,
      pH_penalty, T_K]
    ring
  have hT : predictedR (setTurbidity c t2) - predictedR c =
      2.5 * (t2 - c.turbidity) * (7.0 / Real.sqrt c.membraneArea) := by
    simp only [predictedR, setTurbidity, fouling_penalty, pressure_after_temp,
      operational_pressure, osmotic_pressure, viscosity_adjustment, turbidity_penalty,
      pH_penalty, T_K]
    ring
  have h1 : predictedR c < predictedR (setFouling c f2) := by linarith [hF]
  have hposT : 0 < 2.5 * (t2 - c.turbidity) * (7.0 / Real.sqrt c.membraneArea) :=
    mul_pos (mul_pos (by norm_num) (sub_pos.mpr ht)) hu
  have h2 : predictedR c < predictedR (setTurbidity c t2) := by linarith [hT]
  exact ⟨h1, h2,
    ⟨_, _, calculate_eq_fin hA, calculate_eq_fin hA, round2_mono h1.le⟩,
    ⟨_, _, calculate_eq_fin hA, calculate_eq_fin hA, round2_mono h2.le⟩⟩

/-- Witness for the amended C6 at cond49 with foulingFactor raised to 0.2
and turbidity raised to 6. -/
theorem monotonicity_amended_witness :
    (0 : ℝ) < cond49.membraneArea ∧ cond49.foulingFactor < 0.2 ∧
      cond49.turbidity < 6 ∧
      predictedR cond49 < predictedR (setFouling cond49 0.2) ∧
      predictedR cond49 < predictedR (setTurbidity cond49 6) :=
  ⟨by norm_num [cond49], by norm_num [cond49], by norm_num [cond49],
    (monotonicity_amended cond49 0.2 6 (by norm_num [cond49]) (by norm_num [cond49])
      (by norm_num [cond49])).1,
    (monotonicity_amended cond49 0.2 6 (by norm_num [cond49]) (by norm_num [cond49])
      (by norm_num [cond49])).2.1⟩

/-- C8: at the extreme input (salinity 2.0, temperature 5,
foulingFactor 1.0, other fields default) the predictor returns the raw
rounded pipeline value as-is, and it lies above 70 bar — outside the
historical [35, 70] range, with no clamping applied. -/
theorem no_clamping :
    calculateMinimumPressure condExtreme = JSNum.fin (round2 (predictedR condExtreme)) ∧
      70 < round2 (predictedR condExtreme) := by
  refine ⟨calculate_eq_fin (by norm_num [condExtreme]), ?_⟩
  have hval : predictedR condExtreme = 173.152315456 * (7.0 / Real.sqrt 50) + 32 := by
    simp only [predictedR, pressure_after_temp, operational_pressure, osmotic_pressure,
      viscosity_adjustment, turbidity_penalty, pH_penalty, fouling_penalty, T_K,
      vantHoffFactor, gasR, optimal_pH, condExtreme]
    rw [show (7.7 : ℝ) - 7.75 = -(0.05) by norm_num, abs_neg,
      abs_of_nonneg (by norm_num : (0 : ℝ) ≤ 0.05)]
    norm_num
  have hs1 := sqrt50_lb
  have hs2 := sqrt50_ub
  have hpos : (0 : ℝ) < Real.sqrt 50 := lt_of_lt_of_le (by norm_num) hs1
  have hss : Real.sqrt 50 * (7.0 / Real.sqrt 50) = 7.0 := by field_simp
  have hu : (0 : ℝ) < 7.0 / Real.sqrt 50 := by positivity
  have hx : (203 : ℝ) ≤ predictedR condExtreme := by
    rw [hval]
    nlinarith [hss, hu, hs1, hs2]
  have h1 : ((20300 : ℤ) : ℝ) ≤ predictedR condExtreme * 100 + 1 / 2 := by
    push_cast
    linarith
  have hge := round2_ge h1
  push_cast at hge
  linarith

/-- C9: `ensureNumber` is a pure function from raw text and a default
number to a number: when the text parses (`parseFloat` succeeds) it
returns the parsed value, and when parsing fails it returns the supplied
default — at the call sites the documented per-field defaults 0.68, 22,
7.7, 5.2, 50 and 0.1 — so the predictor core never sees raw text. -/
theorem ensureNumber_default_substitution :
    (∀ (t : String) (d v : ℚ), parseFloat t = some v → ensureNumber t d = v) ∧
      (∀ (t : String) (d : ℚ), parseFloat t = none → ensureNumber t d = d) := by
  constructor
  · intro t d v h
    rw [ensureNumber, h]
  · intro t d h
    rw [ensureNumber, h]

/-- Witness for C9 on a parsing and a non-parsing input, with documented
defaults as the fallback. -/
theorem ensureNumber_default_substitution_witness :
    ensureNumber "42" 0.68 = 42 ∧ ensureNumber "hello" 22 = 22 :=
  ⟨ensureNumber_default_substitution.1 "42" 0.68 42 (by
      rw [parseFloat, show parseFloatParts "42" = some (false, 42, 0, 0, none) from by decide]
      norm_num [partsValue]),
    ensureNumber_default_substitution.2 "hello" 22 (by
      rw [parseFloat, show parseFloatParts "hello" = none from by decide]
      rfl)⟩

/-- C10: parsing is lenient, not strict — a string whose longest numeric
prefix is a valid number followed by trailing junk ("3.5abc") yields the
prefix value 3.5 for every default, and the default is substituted
exactly when `parseFloat` yields NaN (e.g. the empty string, or "abc"
with no leading numeric prefix). -/
theorem ensureNumber_lenient_prefix_parsing :
    parseFloat "3.5abc" = some (7 / 2) ∧
      (∀ d : ℚ, ensureNumber "3.5abc" d = 7 / 2) ∧
      parseFloat "" = none ∧ parseFloat "abc" = none ∧
      (∀ (s : String) (d : ℚ), parseFloat s = none → ensureNumber s d = d) := by
  have h35 : parseFloat "3.5abc" = some (7 / 2) := by
    rw [parseFloat, show parseFloatParts "3.5abc" = some (false, 3, 5, 1, none) from by decide]
    norm_num [partsValue]
  refine ⟨h35, fun d => ?_, ?_, ?_, fun s d h => ?_⟩
  · rw [ensureNumber, h35]
  · rw [parseFloat, show parseFloatParts "" = none from by decide]
    rfl
  · rw [parseFloat, show parseFloatParts "abc" = none from by decide]
    rfl
  · rw [ensureNumber, h]

/-- Witness for C10 on a string with no numeric prefix. -/
theorem ensureNumber_lenient_prefix_parsing_witness : ensureNumber "x9" 5 = 5 :=
  ensureNumber_lenient_prefix_parsing.2.2.2.2 "x9" 5 (by
    rw [parseFloat, show parseFloatParts "x9" = none from by decide]
    rfl)
